import Mathlib

/-!
Shallow embedding of the mcp-assistant repository (src/mcp_client.py and
src/mcp_server.py) and verification of the frozen claims about it.

External collaborators (the MCP session transport, the OpenAI chat model,
the wikipedia library, shlex tokenization) are modelled as explicit
function parameters; the code of the repository itself is translated
function by function.
-/

namespace McpAssistant

/-! ## Data model: messages of the conversation state

The LangGraph `State` of mcp_client.py is a list of messages combined with
the `add_messages` reducer, i.e. an append-only message log. A message is
either a human (user) message, an AI (assistant) message possibly carrying
tool-call requests, or a tool-result message produced by the `ToolNode`. -/

/-- A tool call requested by the model: a tool name plus the single text
argument the model supplies for it. -/
structure ToolCall where
  name : String
  argument : String
deriving DecidableEq, Repr

/-- One entry of the conversation state. -/
inductive Message
  | user (content : String)
  | assistant (content : String) (toolCalls : List ToolCall)
  | toolResult (callName : String) (content : String)
deriving DecidableEq, Repr

/-- True exactly on assistant messages. -/
def Message.isAssistantMsg : Message → Bool
  | .assistant _ _ => true
  | _ => false

/-! ## Tool Registry Adapter: `load_mcp_tools` and the per-tool wrapper

From src/mcp_client.py lines 20-43. The MCP session is modelled by the
abstract backend `call_tool : String → List (String × String) → Except
String (List String)`: a tool name and a keyword-argument dictionary in,
either a content list (each entry the text of one content item) or a
raised exception (the error message) out. -/

/-- The keyword-argument dictionary the wrapper passes to
`session.call_tool`: the code always binds the input under the fixed key
"query" (mcp_client.py line 30). -/
def tool_call_args (input_data : String) : List (String × String) :=
  [("query", input_data)]

/-- `tool_func` from mcp_client.py lines 28-33 (the closure produced by
`create_tool_func(tool_name)`): call the backend, return the text of the
first content item (or "No result" for empty content); any exception is
caught and converted into a diagnostic string naming the tool. -/
def tool_func (call_tool : String → List (String × String) → Except String (List String))
    (tool_name : String) (input_data : String) : String :=
  match call_tool tool_name (tool_call_args input_data) with
  | .ok content =>
      match content.head? with
      | some t => t
      | none => "No result"
  | .error e => "Error calling tool " ++ tool_name ++ ": " ++ e

/-- Python truthiness of `a or b` on an optional string: the fallback is
used when the string is absent or empty (mcp_client.py line 38). -/
def py_str_or (s : Option String) (fallback : String) : String :=
  match s with
  | some d => if d.isEmpty then fallback else d
  | none => fallback

/-- What `session.list_tools()` reports for one tool. -/
structure ToolInfo where
  name : String
  description : Option String
deriving DecidableEq, Repr

/-- A LangChain `Tool` descriptor as built by the client. -/
structure ToolDescriptor where
  name : String
  description : String
  func : String → String

/-- `load_mcp_tools` from mcp_client.py lines 20-43: one descriptor per
discovered tool, in discovery order; each descriptor bundles the tool
name, its description (with the "Tool: name" fallback) and an invocation
function specialised to that name via `create_tool_func(tool.name)`,
which passes the name by value so every closure captures its own name. -/
def load_mcp_tools (call_tool : String → List (String × String) → Except String (List String))
    (tools : List ToolInfo) : List ToolDescriptor :=
  tools.map fun t =>
    { name := t.name
      description := py_str_or t.description ("Tool: " ++ t.name)
      func := tool_func call_tool t.name }

/-- How a requested tool call is folded into the conversation state by the
`ToolNode`: one tool-result message carrying the invocation output. -/
def tool_result_msg (invoke : ToolCall → String) (c : ToolCall) : Message :=
  .toolResult c.name (invoke c)

/-! ## Claim C1 -/

/-- C1: for every tool and input, if the backend invocation raises, the
wrapped invocation function returns (rather than propagates) a text string
naming the failing tool and carrying the cause, and that text is what the
turn folds into the tool-result message. -/
theorem tool_error_contained
    (call_tool : String → List (String × String) → Except String (List String))
    (tool_name input_data e : String)
    (h : call_tool tool_name (tool_call_args input_data) = .error e) :
    tool_func call_tool tool_name input_data =
      "Error calling tool " ++ tool_name ++ ": " ++ e ∧
    tool_result_msg (fun c => tool_func call_tool c.name c.argument)
        ⟨tool_name, input_data⟩ =
      Message.toolResult tool_name ("Error calling tool " ++ tool_name ++ ": " ++ e) := by
  constructor
  · simp [tool_func, h]
  · simp [tool_result_msg, tool_func, h]

/-- C1 witness: a concrete backend that always raises. -/
theorem tool_error_contained_witness :
    tool_func (fun _ _ => .error "boom") "fetch_wikipedia_info" "Marie Curie" =
      "Error calling tool fetch_wikipedia_info: boom" :=
  (tool_error_contained (fun _ _ => .error "boom")
    "fetch_wikipedia_info" "Marie Curie" "boom" rfl).1

/-! ## Turn Router: the compiled LangGraph loop of `create_graph`

From src/mcp_client.py lines 53-79. The compiled graph runs: START →
chat_node; chat_node invokes the model and, through the `add_messages`
reducer of `State`, appends the returned AI message to the state;
`tools_condition` routes to tool_node exactly when that AI message carries
tool calls, otherwise to END; tool_node appends one tool-result message
per requested call and loops back to chat_node.

The model is abstracted as a script: the finite list of responses it
returns on the successive chat_node invocations of one turn. -/

/-- One model response: assistant text plus the tool calls it requests
(none for a plain-text answer). -/
structure ModelResponse where
  content : String
  toolCalls : List ToolCall
deriving DecidableEq, Repr

/-- Total number of tool calls requested by a script of model responses. -/
def requested_calls (script : List ModelResponse) : Nat :=
  (script.map (fun r => r.toolCalls.length)).sum

/-- The chat_node / tool_node loop of the compiled graph: consume the
model responses one at a time; each response is appended as an assistant
message; a response with tool calls appends one tool-result message per
call and loops; a response without tool calls ends the turn. `none` means
the script was exhausted before the model produced a plain-text answer
(the run is then not a completed turn). -/
def run_rounds (invoke : ToolCall → String) :
    List ModelResponse → List Message → Option (List Message)
  | [], _ => none
  | r :: rest, msgs =>
    let msgs' := msgs ++ [Message.assistant r.content r.toolCalls]
    if r.toolCalls.isEmpty then some msgs'
    else run_rounds invoke rest (msgs' ++ r.toolCalls.map (tool_result_msg invoke))

/-- One full turn of `agent.ainvoke({"messages": [HumanMessage(...)]})`
on a state holding `init`: the user message is appended first, then the
graph loop runs. -/
def run_turn (invoke : ToolCall → String) (script : List ModelResponse)
    (user_input : String) (init : List Message) : Option (List Message) :=
  run_rounds invoke script (init ++ [Message.user user_input])

/-- Helper for C2: a script made of tool-call rounds followed by one
plain-text response completes, and the final length counts one assistant
message per model response plus one tool-result per requested call. -/
theorem run_rounds_length (invoke : ToolCall → String) (last : ModelResponse)
    (hlast : last.toolCalls = []) :
    ∀ (body : List ModelResponse) (msgs : List Message),
      (∀ r ∈ body, r.toolCalls ≠ []) →
      ∃ final, run_rounds invoke (body ++ [last]) msgs = some final ∧
        final.length = msgs.length + (body.length + 1) + requested_calls body
  | [], msgs, _ => by
    refine ⟨msgs ++ [Message.assistant last.content last.toolCalls], ?_, ?_⟩
    · simp [run_rounds, hlast]
    · simp [requested_calls]
  | r :: body, msgs, hbody => by
    have hr : r.toolCalls ≠ [] := hbody r (by simp)
    obtain ⟨final, h1, h2⟩ :=
      run_rounds_length invoke last hlast body
        ((msgs ++ [Message.assistant r.content r.toolCalls]) ++
          r.toolCalls.map (tool_result_msg invoke))
        (fun x hx => hbody x (by simp [hx]))
    refine ⟨final, ?_, ?_⟩
    · simpa [run_rounds, List.isEmpty_iff, hr] using h1
    · simp [requested_calls] at h2 ⊢
      omega

/-! ## Claim C2 -/

/-- C2 counterexample script, first round: the model requests one tool
call. -/
def cex_round1 : ModelResponse :=
  ⟨"", [⟨"fetch_wikipedia_info", "Marie Curie"⟩]⟩

/-- C2 counterexample script, second round: the model answers with plain
text. -/
def cex_round2 : ModelResponse :=
  ⟨"Marie Curie was a physicist.", []⟩

/-- C2 counterexample script: one tool-call round, then a plain answer. -/
def cex_script : List ModelResponse :=
  [cex_round1, cex_round2]

/-- C2 counterexample: a successfully completed turn with 1 requested
tool call, started from an empty state, ends with 4 messages (user,
assistant tool-call request, tool result, final assistant text), not the
claimed initial + 1 + 1 + 1 = 3: the claim omits the assistant messages
that carry the tool-call requests. -/
theorem turn_length_counterexample :
    (run_turn (fun _ => "result") cex_script "Tell me about Marie Curie" []).map
        List.length = some 4 ∧
    requested_calls cex_script = 1 ∧
    (4 : Nat) ≠ 0 + 1 + 1 + 1 := by
  refine ⟨rfl, rfl, by decide⟩

/-- C2 amended: for a turn that completes successfully (model script: zero
or more tool-call rounds, then one plain-text response), the final state
length equals the initial length, plus one user message, plus one
assistant message per model response (each tool-call-requesting round and
the final text answer), plus one tool-result message per requested call. -/
theorem turn_length (invoke : ToolCall → String) (body : List ModelResponse)
    (last : ModelResponse) (user_input : String) (init : List Message)
    (hbody : ∀ r ∈ body, r.toolCalls ≠ []) (hlast : last.toolCalls = []) :
    ∃ final, run_turn invoke (body ++ [last]) user_input init = some final ∧
      final.length =
        init.length + 1 + (body ++ [last]).length +
          requested_calls (body ++ [last]) := by
  obtain ⟨final, h1, h2⟩ :=
    run_rounds_length invoke last hlast body (init ++ [Message.user user_input]) hbody
  refine ⟨final, h1, ?_⟩
  have hcalls : requested_calls (body ++ [last]) = requested_calls body := by
    simp [requested_calls, hlast]
  simp only [List.length_append, List.length_cons, List.length_nil, hcalls] at h2 ⊢
  omega

/-- C2 witness: the amended count on the counterexample turn:
0 + 1 (user) + 2 (assistant messages) + 1 (tool result) = 4. -/
theorem turn_length_witness :
    ∃ final,
      run_turn (fun _ => "result") ([cex_round1] ++ [cex_round2])
          "Tell me about Marie Curie" [] = some final ∧
      final.length =
        ([] : List Message).length + 1 + ([cex_round1] ++ [cex_round2]).length +
          requested_calls ([cex_round1] ++ [cex_round2]) :=
  turn_length (fun _ => "result") [cex_round1] cex_round2
    "Tell me about Marie Curie" []
    (by intro r hr; simp only [List.mem_singleton] at hr; subst hr
        simp [cex_round1]) rfl

/-! ## Turn Router with a fallible model (claim C4)

The same loop, with each model invocation allowed to raise (e.g. an
authentication error because OPENAI_API_KEY is absent). LangGraph with the
MemorySaver checkpointer persists the input update (the user message) and
every completed super-step before the next node runs, so when chat_node
raises, the state retained is exactly the message list as it stood before
that model call; the exception propagates out of `agent.ainvoke` and is
caught by the caller in `main` (mcp_client.py lines 163-170). -/

/-- The outcome of one turn when model invocations may fail. On failure,
the retained conversation state (the checkpoint as of just before the
failed model call) is carried alongside the surfaced error. -/
inductive TurnResult
  | completed (msgs : List Message)
  | modelFailed (err : String) (msgs : List Message)
  | outOfScript
deriving DecidableEq, Repr

/-- The graph loop with a fallible model script: each entry is either a
model response or the exception that call raised. -/
def run_rounds_e (invoke : ToolCall → String) :
    List (Except String ModelResponse) → List Message → TurnResult
  | [], _ => .outOfScript
  | .error e :: _, msgs => .modelFailed e msgs
  | .ok r :: rest, msgs =>
    let msgs' := msgs ++ [Message.assistant r.content r.toolCalls]
    if r.toolCalls.isEmpty then .completed msgs'
    else run_rounds_e invoke rest (msgs' ++ r.toolCalls.map (tool_result_msg invoke))

/-- One full turn with a fallible model, started from state `init`. -/
def run_turn_e (invoke : ToolCall → String) (script : List (Except String ModelResponse))
    (user_input : String) (init : List Message) : TurnResult :=
  run_rounds_e invoke script (init ++ [Message.user user_input])

/-- Helper for C4: whenever the loop fails on a model call, the retained
state extends the state the loop started from, and it either is exactly
that state or ends in a tool-result message. -/
theorem run_rounds_e_failure_state (invoke : ToolCall → String) :
    ∀ (script : List (Except String ModelResponse)) (msgs : List Message)
      (e : String) (st : List Message),
      run_rounds_e invoke script msgs = .modelFailed e st →
      (∃ tail, st = msgs ++ tail) ∧
      (st = msgs ∨ ∃ c r, st.getLast? = some (Message.toolResult c r))
  | [], msgs, e, st => by simp [run_rounds_e]
  | .error e' :: rest, msgs, e, st => by
    intro h
    simp only [run_rounds_e, TurnResult.modelFailed.injEq] at h
    obtain ⟨-, rfl⟩ := h
    exact ⟨⟨[], by simp⟩, Or.inl rfl⟩
  | .ok r :: rest, msgs, e, st => by
    intro h
    simp only [run_rounds_e] at h
    by_cases hr : r.toolCalls.isEmpty
    · simp [hr] at h
    · simp only [hr, if_false] at h
      obtain ⟨⟨tail, htail⟩, hlast⟩ :=
        run_rounds_e_failure_state invoke rest
          ((msgs ++ [Message.assistant r.content r.toolCalls]) ++
            r.toolCalls.map (tool_result_msg invoke)) e st h
      constructor
      · exact ⟨[Message.assistant r.content r.toolCalls] ++
          r.toolCalls.map (tool_result_msg invoke) ++ tail, by simp [htail]⟩
      · rcases hlast with hst | hst
        · subst hst
          right
          have hne : r.toolCalls ≠ [] := by
            simpa [List.isEmpty_iff] using hr
          obtain ⟨x, hx⟩ : ∃ x, r.toolCalls.getLast? = some x :=
            Option.isSome_iff_exists.mp (List.getLast?_isSome.mpr hne)
          refine ⟨x.name, invoke x, ?_⟩
          rw [List.getLast?_append, List.getLast?_map, hx]
          rfl
        · exact Or.inr hst

/-! ## Claim C4 -/

/-- C4: when a model call of a turn fails, the turn aborts carrying that
error; the retained conversation state extends the pre-turn history by
the triggering user message (so retry is possible), and no partial
assistant message was appended by the failed call: the retained state
never ends in an assistant message (it ends in the user message for a
first-call failure, or in a tool-result message for a later-round
failure). -/
theorem model_failure_preserves_state (invoke : ToolCall → String)
    (script : List (Except String ModelResponse)) (user_input : String)
    (init : List Message) (e : String) (st : List Message)
    (h : run_turn_e invoke script user_input init = .modelFailed e st) :
    (∃ tail, st = (init ++ [Message.user user_input]) ++ tail) ∧
    (∀ m, st.getLast? = some m → m.isAssistantMsg = false) := by
  obtain ⟨⟨tail, htail⟩, hlast⟩ :=
    run_rounds_e_failure_state invoke script (init ++ [Message.user user_input]) e st h
  refine ⟨⟨tail, htail⟩, ?_⟩
  intro m hm
  rcases hlast with hst | ⟨c, r, hst⟩
  · subst hst
    rw [List.getLast?_concat] at hm
    cases hm
    rfl
  · rw [hst] at hm
    cases hm
    rfl

/-- C4 witness: a model whose very first call raises an authentication
error leaves the state as prior history plus the user message only. -/
theorem model_failure_preserves_state_witness :
    (∃ tail,
      [Message.user "hi", Message.user "q"] =
        ([Message.user "hi"] ++ [Message.user "q"]) ++ tail) ∧
    (∀ m, [Message.user "hi", Message.user "q"].getLast? = some m →
      m.isAssistantMsg = false) :=
  model_failure_preserves_state (fun _ => "result")
    [.error "authentication failed"] "q" [Message.user "hi"]
    "authentication failed" [Message.user "hi", Message.user "q"] rfl

/-! ## Prompt Catalog Adapter: `list_prompts` and `handle_prompt`

From src/mcp_client.py lines 81-136. `session.list_prompts()` is modelled
as `catalog : Except String (List Prompt)`: either the list of prompt
descriptors or the exception the transport raised (catalog unreachable).
`session.get_prompt` and `agent.ainvoke` are likewise modelled as
Except-valued functions. -/

/-- One declared argument of a prompt descriptor. -/
structure PromptArg where
  name : String
deriving DecidableEq, Repr

/-- A prompt descriptor as reported by the server. -/
structure Prompt where
  name : String
  arguments : List PromptArg
deriving DecidableEq, Repr

/-- The per-prompt block printed by `list_prompts`
(mcp_client.py lines 89-95). -/
def format_prompt_entry (p : Prompt) : String :=
  "\nPrompt: " ++ p.name ++
    (if p.arguments.isEmpty then "\n  - No arguments required."
     else String.join (p.arguments.map (fun a => "\n  - " ++ a.name)))

/-- `list_prompts` from mcp_client.py lines 81-96, returning the text it
prints. The fetch of the catalog is not wrapped in any try/except, so a
transport exception propagates (the `.error` case); an empty catalog
prints the no-prompts message and returns normally. -/
def list_prompts (catalog : Except String (List Prompt)) : Except String String :=
  match catalog with
  | .error e => .error e
  | .ok prompts =>
    if prompts.isEmpty then .ok "No prompts found on the server."
    else .ok ("\nAvailable Prompts and Argument Structure:" ++
      String.join (prompts.map format_prompt_entry) ++
      "\nUse: /prompt <prompt_name> \x22arg1\x22 \x22arg2\x22 ...")

/-- The remote calls `handle_prompt` makes, in order. -/
inductive PromptEffect
  | listPromptsCall
  | getPromptCall (name : String) (args : List (String × String))
  | agentCall (promptText : String)
deriving DecidableEq, Repr

/-- What `handle_prompt` reports to the user. -/
inductive PromptOutcome
  | usage
  | notFound (name : String)
  | argMismatch (expected : Nat) (argNames : List String)
  | resultText (text : String)
  | failed (err : String)
deriving DecidableEq, Repr

/-- `handle_prompt` from mcp_client.py lines 99-136, starting from the
token list `parts = shlex.split(command.strip())`: fewer than two tokens
is a usage error; otherwise look the prompt up in the freshly fetched
catalog, reject a missing prompt, reject an argument-count mismatch
(reporting the expected count and the declared argument names), and only
then bind the arguments positionally, render via `session.get_prompt`,
and run the rendered text through the agent. The body after tokenization
is wrapped in try/except, so catalog, render and agent failures all
become the `failed` outcome. Alongside the outcome, the list of remote
calls actually made is returned. -/
def handle_prompt (catalog : Except String (List Prompt))
    (get_prompt : String → List (String × String) → Except String String)
    (agent : String → Except String String) :
    List String → PromptOutcome × List PromptEffect
  | [] => (.usage, [])
  | [_] => (.usage, [])
  | _ :: prompt_name :: args =>
    match catalog with
    | .error e => (.failed e, [.listPromptsCall])
    | .ok prompts =>
      match prompts.find? (fun p => p.name == prompt_name) with
      | none => (.notFound prompt_name, [.listPromptsCall])
      | some m =>
        if args.length ≠ m.arguments.length then
          (.argMismatch m.arguments.length (m.arguments.map (fun a => a.name)),
            [.listPromptsCall])
        else
          let arg_values := (m.arguments.map (fun a => a.name)).zip args
          match get_prompt prompt_name arg_values with
          | .error e => (.failed e, [.listPromptsCall, .getPromptCall prompt_name arg_values])
          | .ok prompt_text =>
            match agent prompt_text with
            | .error e =>
              (.failed e,
                [.listPromptsCall, .getPromptCall prompt_name arg_values,
                  .agentCall prompt_text])
            | .ok response =>
              (.resultText response,
                [.listPromptsCall, .getPromptCall prompt_name arg_values,
                  .agentCall prompt_text])

/-! ## Claim C5 -/

/-- C5: a run-prompt command naming an existing prompt but supplying the
wrong number of arguments always fails with the argument-count-mismatch
report (expected count and declared argument names), and neither the
remote render capability nor the agent is ever invoked: the only remote
call made is the catalog fetch. -/
theorem arg_count_mismatch_no_render
    (get_prompt : String → List (String × String) → Except String String)
    (agent : String → Except String String)
    (cmd prompt_name : String) (args : List String)
    (prompts : List Prompt) (m : Prompt)
    (hfind : prompts.find? (fun p => p.name == prompt_name) = some m)
    (hcount : args.length ≠ m.arguments.length) :
    handle_prompt (.ok prompts) get_prompt agent (cmd :: prompt_name :: args) =
      (.argMismatch m.arguments.length (m.arguments.map (fun a => a.name)),
        [.listPromptsCall]) ∧
    (∀ n a, PromptEffect.getPromptCall n a ∉
      (handle_prompt (.ok prompts) get_prompt agent (cmd :: prompt_name :: args)).2) ∧
    (∀ t, PromptEffect.agentCall t ∉
      (handle_prompt (.ok prompts) get_prompt agent (cmd :: prompt_name :: args)).2) := by
  refine ⟨?_, ?_, ?_⟩ <;> simp [handle_prompt, hfind, hcount]

/-- C5 witness: a prompt requiring two arguments invoked with one. -/
theorem arg_count_mismatch_no_render_witness :
    handle_prompt
        (.ok [⟨"highlight_sections_prompt", [⟨"topic"⟩, ⟨"depth"⟩]⟩])
        (fun _ _ => .ok "rendered") (fun _ => .ok "answer")
        ["/prompt", "highlight_sections_prompt", "Python"] =
      (.argMismatch 2 ["topic", "depth"], [.listPromptsCall]) :=
  (arg_count_mismatch_no_render (fun _ _ => .ok "rendered") (fun _ => .ok "answer")
    "/prompt" "highlight_sections_prompt" ["Python"]
    [⟨"highlight_sections_prompt", [⟨"topic"⟩, ⟨"depth"⟩]⟩]
    ⟨"highlight_sections_prompt", [⟨"topic"⟩, ⟨"depth"⟩]⟩
    (by rfl) (by decide)).1

/-! ## Claim C6 -/

/-- C6: listing prompts on a reachable catalog with zero prompts returns
normally with the no-prompts message, while an unreachable catalog
propagates its exception; the two outcomes are distinct values. -/
theorem list_prompts_empty_vs_unreachable (e : String) :
    list_prompts (.ok []) = .ok "No prompts found on the server." ∧
    list_prompts (.error e) = .error e ∧
    list_prompts (.ok []) ≠ list_prompts (.error e) := by
  refine ⟨rfl, rfl, ?_⟩
  simp [list_prompts]

/-! ## Command Dispatcher: the `main` loop body

From src/mcp_client.py lines 152-170. Each iteration reads a line, strips
it, and dispatches: exit tokens end the session, a "/prompts" line lists
the catalog, a "/prompt" line runs the prompt handler, anything else is a
plain question for the agent — and only the plain-question branch is
wrapped in try/except. -/

/-- Python str.strip / str.lower / str.startswith, modelled over the
character list (ASCII fragment, which covers every token the dispatcher
compares against). -/
def py_space (c : Char) : Bool :=
  c = ' ' || c = '\t' || c = '\n' || c = '\r'

/-- Python `str.strip()`: drop leading and trailing whitespace. -/
def py_strip (s : String) : String :=
  ⟨((s.data.dropWhile py_space).reverse.dropWhile py_space).reverse⟩

/-- ASCII lowercasing of one character. -/
def ascii_lower (c : Char) : Char :=
  if 65 ≤ c.toNat ∧ c.toNat ≤ 90 then Char.ofNat (c.toNat + 32) else c

/-- Python `str.lower()` on the ASCII fragment. -/
def py_lower (s : String) : String :=
  ⟨s.data.map ascii_lower⟩

/-- Python `s.startswith(pre)`. -/
def py_startswith (s pre : String) : Bool :=
  pre.data.isPrefixOf s.data

/-- The exit tokens accepted by the loop (mcp_client.py line 154). -/
def exit_tokens : List String := ["exit", "quit", "q"]

/-- How one input line is classified. -/
inductive UserCommand
  | exitSession
  | listCatalog
  | runPrompt (line : String)
  | question (line : String)
deriving DecidableEq, Repr

/-- The dispatch of mcp_client.py lines 153-161 on the stripped input:
exit tokens first (case-insensitive), then the "/prompts" prefix, then
the "/prompt" prefix, else a plain question. -/
def classify (raw : String) : UserCommand :=
  let user_input := py_strip raw
  if py_lower user_input ∈ exit_tokens then .exitSession
  else if py_startswith user_input "/prompts" then .listCatalog
  else if py_startswith user_input "/prompt" then .runPrompt user_input
  else .question user_input

/-- The text printed on the plain-question path (mcp_client.py lines
163-170): the agent answer prefixed by "AI:", or any raised exception
caught and prefixed by "Error:". -/
def question_output (agent : String → Except String String) (line : String) : String :=
  match agent line with
  | .ok response => "AI: " ++ response
  | .error e => "Error: " ++ e

/-- The text printed for each `handle_prompt` outcome
(mcp_client.py lines 102, 113, 119, 132-133, 136). -/
def render_prompt_outcome : PromptOutcome → String
  | .usage => "Usage: /prompt <name> \x22args>\x22"
  | .notFound n => "Prompt \x27" ++ n ++ "\x27 not found."
  | .argMismatch expected argNames =>
      "Expected " ++ toString expected ++ " arguments: " ++
        String.intercalate ", " argNames
  | .resultText t => "\n=== Prompt Result ===\n" ++ t
  | .failed e => "Prompt invocation failed: " ++ e

/-- The external collaborators one loop iteration can reach. -/
structure SessionOps where
  catalog : Except String (List Prompt)
  tokenize : String → Except String (List String)
  get_prompt : String → List (String × String) → Except String String
  agent : String → Except String String

/-- What one loop iteration does when it does not raise. -/
inductive StepOutcome
  | exited
  | continued (output : String)
deriving DecidableEq, Repr

/-- One iteration of the `while True` loop of `main` (mcp_client.py lines
152-170). An `.error` result is an exception escaping the loop body —
nothing in `main` catches it, so it terminates the session. The
"/prompts" branch calls `list_prompts` unguarded; the "/prompt" branch
tokenizes with `shlex.split` outside `handle_prompt`'s try/except; the
plain-question branch alone is wrapped in try/except. -/
def main_step (ops : SessionOps) (raw : String) : Except String StepOutcome :=
  match classify raw with
  | .exitSession => .ok .exited
  | .listCatalog =>
    match list_prompts ops.catalog with
    | .ok out => .ok (.continued out)
    | .error e => .error e
  | .runPrompt line =>
    match ops.tokenize line with
    | .error e => .error e
    | .ok parts =>
      .ok (.continued (render_prompt_outcome
        (handle_prompt ops.catalog ops.get_prompt ops.agent parts).1))
  | .question line => .ok (.continued (question_output ops.agent line))

/-! ## Claim C3 -/

/-- C3 counterexample session: the prompt catalog is unreachable. -/
def unreachable_ops : SessionOps where
  catalog := .error "catalog unreachable"
  tokenize := fun _ => .ok []
  get_prompt := fun _ _ => .error "catalog unreachable"
  agent := fun q => .ok q

/-- C3 counterexample: with an unreachable catalog, the "/prompts"
command makes the loop iteration raise (the exception is not caught at
the dispatcher boundary), so the session loop terminates — refuting the
claim that every failure path returns control to the loop. -/
theorem dispatcher_uncaught_counterexample :
    main_step unreachable_ops "/prompts" = .error "catalog unreachable" := rfl

/-- C3 amended: the plain-question path catches every agent exception and
continues (rendering it as an error line), the run-prompt path continues
whenever tokenization succeeds (handler failures are caught inside the
handler), and the exit path returns normally; but exceptions from the
catalog fetch of the listing command and from tokenizing the run-prompt
command line are not caught and propagate out of the loop. -/
theorem dispatcher_error_containment (ops : SessionOps) (raw : String) :
    (∀ line, classify raw = .question line →
      main_step ops raw = .ok (.continued (question_output ops.agent line))) ∧
    (∀ line parts, classify raw = .runPrompt line → ops.tokenize line = .ok parts →
      main_step ops raw = .ok (.continued (render_prompt_outcome
        (handle_prompt ops.catalog ops.get_prompt ops.agent parts).1))) ∧
    (classify raw = .exitSession → main_step ops raw = .ok .exited) := by
  refine ⟨?_, ?_, ?_⟩
  · intro line h
    simp [main_step, h]
  · intro line parts h htok
    simp [main_step, h, htok]
  · intro h
    simp [main_step, h]

/-- C3 witness: a failing agent on a plain question is rendered as an
error line and the loop continues. -/
theorem dispatcher_error_containment_witness :
    main_step
        { catalog := .ok []
          tokenize := fun _ => .ok []
          get_prompt := fun _ _ => .error "down"
          agent := fun _ => .error "model down" }
        "What is MCP?" =
      .ok (.continued "Error: model down") :=
  (dispatcher_error_containment
    { catalog := .ok []
      tokenize := fun _ => .ok []
      get_prompt := fun _ _ => .error "down"
      agent := fun _ => .error "model down" }
    "What is MCP?").1 "What is MCP?" rfl

/-! ## Claim C7 -/

/-- C7: classification happens in priority order on the stripped line:
the exact exit tokens (case-insensitive) end the session; then the
"/prompts" prefix selects the catalog listing; then the "/prompt" prefix
selects the run-prompt handler; every other line is a plain question
forwarded to the agent. -/
theorem classify_priority_order (raw : String) :
    (py_lower (py_strip raw) ∈ exit_tokens → classify raw = .exitSession) ∧
    (py_lower (py_strip raw) ∉ exit_tokens →
      py_startswith (py_strip raw) "/prompts" = true →
      classify raw = .listCatalog) ∧
    (py_lower (py_strip raw) ∉ exit_tokens →
      py_startswith (py_strip raw) "/prompts" = false →
      py_startswith (py_strip raw) "/prompt" = true →
      classify raw = .runPrompt (py_strip raw)) ∧
    (py_lower (py_strip raw) ∉ exit_tokens →
      py_startswith (py_strip raw) "/prompts" = false →
      py_startswith (py_strip raw) "/prompt" = false →
      classify raw = .question (py_strip raw)) := by
  refine ⟨?_, ?_, ?_, ?_⟩
  · intro h
    simp [classify, h]
  · intro h1 h2
    simp [classify, h1, h2]
  · intro h1 h2 h3
    simp [classify, h1, h2, h3]
  · intro h1 h2 h3
    simp [classify, h1, h2, h3]

/-- C7 witness: one input of each class. -/
theorem classify_priority_order_witness :
    classify " QUIT " = .exitSession ∧
    classify "/prompts" = .listCatalog ∧
    classify "/prompt summarize \x22Python\x22" =
      .runPrompt "/prompt summarize \x22Python\x22" ∧
    classify "Tell me about Marie Curie" = .question "Tell me about Marie Curie" :=
  ⟨(classify_priority_order " QUIT ").1 (by decide),
   (classify_priority_order "/prompts").2.1 (by decide) (by decide),
   (classify_priority_order "/prompt summarize \x22Python\x22").2.2.1
     (by decide) (by decide) (by decide),
   (classify_priority_order "Tell me about Marie Curie").2.2.2
     (by decide) (by decide) (by decide)⟩

/-! ## The MCP server: tool signatures and `fetch_wikipedia_info`

From src/mcp_server.py. The three registered tools and their declared
parameter names come from the decorated function signatures; FastMCP
validates an incoming keyword-argument dictionary against the signature
and rejects a call whose keys do not bind the declared parameters, which
the client session surfaces as a raised error. -/

/-- A tool registered on the server: its name and its declared parameter
names, from the function signatures of mcp_server.py lines 21-91. -/
structure ServerTool where
  name : String
  params : List String
deriving DecidableEq, Repr

/-- The three tools of mcp_server.py: `fetch_wikipedia_info(query)`,
`list_wikipedia_sections(topic)`, `get_section_content(topic,
section_title)`. -/
def server_tools : List ServerTool :=
  [⟨"fetch_wikipedia_info", ["query"]⟩,
   ⟨"list_wikipedia_sections", ["topic"]⟩,
   ⟨"get_section_content", ["topic", "section_title"]⟩]

/-- Keyword-argument binding: the supplied keys must cover every declared
parameter and introduce no unknown key. -/
def keys_bind (params : List String) (args : List (String × String)) : Bool :=
  params.all (fun p => (args.map Prod.fst).contains p) &&
    (args.map Prod.fst).all (fun k => params.contains k)

/-- The server side of `session.call_tool`: look the tool up, validate
the keyword arguments against its signature, and only then dispatch to
the underlying implementation `run` (abstract here); a failed lookup or
binding is a raised error. -/
def server_call_tool (run : String → List (String × String) → List String)
    (name : String) (args : List (String × String)) : Except String (List String) :=
  match server_tools.find? (fun t => t.name == name) with
  | none => .error ("Unknown tool: " ++ name)
  | some t =>
    if keys_bind t.params args then .ok (run name args)
    else .error ("Invalid arguments for tool " ++ name)

/-! ## Claim C8 -/

/-- C8: the generated invocation function always binds its single input
under the fixed key "query", whatever the tool declares; consequently,
against the server of this repository, every tool whose parameter list is
not exactly the single "query" parameter (list_wikipedia_sections,
get_section_content) can never be invoked successfully through the
client: the invocation always returns the caught binding-error text,
never a backend result. -/
theorem query_key_binding_mismatch :
    (∀ input_data, (tool_call_args input_data).map Prod.fst = ["query"]) ∧
    (∀ t ∈ server_tools, t.params ≠ ["query"] →
      ∀ (run : String → List (String × String) → List String) (input_data : String),
        tool_func (server_call_tool run) t.name input_data =
          "Error calling tool " ++ t.name ++ ": Invalid arguments for tool " ++
            t.name) := by
  constructor
  · intro input_data
    rfl
  · intro t ht hq run input_data
    simp only [server_tools, List.mem_cons, List.not_mem_nil, or_false] at ht
    rcases ht with rfl | rfl | rfl
    · exact absurd rfl hq
    · rfl
    · rfl

/-- C8 witness: invoking list_wikipedia_sections (declared parameter
"topic") through the client wrapper yields the error text, for a backend
implementation that would have answered. -/
theorem query_key_binding_mismatch_witness :
    tool_func (server_call_tool (fun _ _ => ["sections"]))
        "list_wikipedia_sections" "Python" =
      "Error calling tool list_wikipedia_sections: Invalid arguments for tool " ++
        "list_wikipedia_sections" :=
  query_key_binding_mismatch.2 ⟨"list_wikipedia_sections", ["topic"]⟩
    (by decide) (by decide) (fun _ _ => ["sections"]) "Python"

/-! ## Claim C9 -/

/-- C9: `load_mcp_tools` returns one descriptor per discovered tool, in
discovery order; the i-th descriptor carries the i-th tool name, the
i-th description (with the "Tool: name" fallback), and an invocation
function bound to the i-th tool name — the per-tool factory passes the
name by value, so there is no shared late binding of the loop variable. -/
theorem load_mcp_tools_index_faithful
    (call_tool : String → List (String × String) → Except String (List String))
    (tools : List ToolInfo) (i : Nat) (h : i < tools.length) :
    (load_mcp_tools call_tool tools).length = tools.length ∧
    (load_mcp_tools call_tool tools).get? i =
      some { name := (tools.get ⟨i, h⟩).name
             description := py_str_or (tools.get ⟨i, h⟩).description
               ("Tool: " ++ (tools.get ⟨i, h⟩).name)
             func := tool_func call_tool (tools.get ⟨i, h⟩).name } := by
  constructor
  · simp [load_mcp_tools]
  · simp [load_mcp_tools, List.get?_eq_getElem?, List.getElem?_map,
      List.getElem?_eq_getElem h, List.get_eq_getElem]

/-- C9 witness: two discovered tools; the second descriptor is bound to
the second name and uses the description fallback. -/
theorem load_mcp_tools_index_faithful_witness :
    (load_mcp_tools (fun _ _ => .ok ["r"])
        [⟨"fetch_wikipedia_info", some "Search Wikipedia"⟩,
         ⟨"list_wikipedia_sections", none⟩]).length = 2 ∧
    (load_mcp_tools (fun _ _ => .ok ["r"])
        [⟨"fetch_wikipedia_info", some "Search Wikipedia"⟩,
         ⟨"list_wikipedia_sections", none⟩]).get? 1 =
      some { name := "list_wikipedia_sections"
             description := py_str_or (none : Option String)
               ("Tool: " ++ "list_wikipedia_sections")
             func := tool_func (fun _ _ => .ok ["r"]) "list_wikipedia_sections" } :=
  load_mcp_tools_index_faithful (fun _ _ => .ok ["r"])
    [⟨"fetch_wikipedia_info", some "Search Wikipedia"⟩,
     ⟨"list_wikipedia_sections", none⟩] 1 (by decide)

/-! ## `fetch_wikipedia_info` (mcp_server.py lines 21-48)

The wikipedia library is abstracted by two oracles: `search` returns the
search-result titles, and `page` either returns a loaded page or raises —
a DisambiguationError (carrying its candidate options), a PageError, or
any other exception. The function catches only the first two; anything
else propagates (the `.error` of the returned Except). -/

/-- A loaded wikipedia page, reduced to the fields the tool reads. -/
structure WikiPage where
  title : String
  summary : String
  url : String
deriving DecidableEq, Repr

/-- The exceptions `wikipedia.page` can raise. -/
inductive PageExc
  | disambiguationError (options : List String)
  | pageError
  | other (msg : String)
deriving DecidableEq, Repr

/-- `fetch_wikipedia_info` from mcp_server.py lines 21-48, returning the
dictionary it builds (as an ordered key-value list); `.error` marks an
exception that the function does not catch and therefore raises. -/
def fetch_wikipedia_info (search : String → List String)
    (page : String → Except PageExc WikiPage) (query : String) :
    Except String (List (String × String)) :=
  match search query with
  | [] => .ok [("error", "No results found for your query.")]
  | best_match :: _ =>
    match page best_match with
    | .ok p => .ok [("title", p.title), ("summary", p.summary), ("url", p.url)]
    | .error (.disambiguationError options) =>
      .ok [("error", "Ambiguous topic. Try one of these: " ++
        String.intercalate ", " (options.take 5))]
    | .error .pageError =>
      .ok [("error", "No Wikipedia page could be loaded for this query.")]
    | .error (.other msg) => .error msg

/-! ## Claim C10 -/

/-- C10: whenever `fetch_wikipedia_info` returns a dictionary, it has
exactly the keys title, summary, url (in that order, taken from the page
of the first search result) or it contains the key "error"; and an empty
search result, a disambiguation error, and a page-not-found error each
return an error dictionary rather than raising. -/
theorem fetch_wikipedia_info_shape (search : String → List String)
    (page : String → Except PageExc WikiPage) (query : String) :
    (∀ d, fetch_wikipedia_info search page query = .ok d →
      d.map Prod.fst = ["title", "summary", "url"] ∨ "error" ∈ d.map Prod.fst) ∧
    (search query = [] →
      fetch_wikipedia_info search page query =
        .ok [("error", "No results found for your query.")]) ∧
    (∀ best_match rest options, search query = best_match :: rest →
      page best_match = .error (.disambiguationError options) →
      fetch_wikipedia_info search page query =
        .ok [("error", "Ambiguous topic. Try one of these: " ++
          String.intercalate ", " (options.take 5))]) ∧
    (∀ best_match rest, search query = best_match :: rest →
      page best_match = .error .pageError →
      fetch_wikipedia_info search page query =
        .ok [("error", "No Wikipedia page could be loaded for this query.")]) := by
  refine ⟨?_, ?_, ?_, ?_⟩
  · intro d hd
    unfold fetch_wikipedia_info at hd
    split at hd
    · cases hd
      simp
    · split at hd <;> first
        | (cases hd; simp)
        | simp at hd
  · intro hs
    unfold fetch_wikipedia_info
    rw [hs]
  · intro best rest options hs hp
    unfold fetch_wikipedia_info
    rw [hs]
    simp [hp]
  · intro best rest hs hp
    unfold fetch_wikipedia_info
    rw [hs]
    simp [hp]

/-- C10 witness: a disambiguating query returns the error dictionary with
the first five options. -/
theorem fetch_wikipedia_info_shape_witness :
    fetch_wikipedia_info (fun _ => ["Mercury"])
        (fun _ => .error (.disambiguationError
          ["Mercury (planet)", "Mercury (element)", "Mercury (mythology)"]))
        "Mercury" =
      .ok [("error", "Ambiguous topic. Try one of these: " ++
        String.intercalate ", "
          (["Mercury (planet)", "Mercury (element)", "Mercury (mythology)"].take 5))] :=
  (fetch_wikipedia_info_shape (fun _ => ["Mercury"])
      (fun _ => .error (.disambiguationError
        ["Mercury (planet)", "Mercury (element)", "Mercury (mythology)"]))
      "Mercury").2.2.1 "Mercury" []
    ["Mercury (planet)", "Mercury (element)", "Mercury (mythology)"] rfl rfl

end McpAssistant
